import Mathlib

/-!
Verification development for the UltraTimer application
(`Programming-Scripts/Timer/ultratimer.py`).

The timer engine is embedded shallowly: wall-clock instants and durations
are rationals (Python floats computed from `time.time()` differences),
the mutable attributes of the `UltraTimer` object become a state record,
and each method mutating that state becomes a pure function from state
(plus the current wall-clock instant) to state.  Side effects
(`play_sound`, `show_notification`) are reported as emitted event lists
rather than performed.
-/

/-- The five display modes of `self.mode` (clock, timer, countdown,
stopwatch, pomodoro). -/
inductive Mode
  | clock
  | timer
  | countdown
  | stopwatch
  | pomodoro
deriving DecidableEq, Repr

/-- The sound kinds passed to `play_sound`. -/
inductive SoundKind
  | warning
  | critical
  | finish
  | tickSound
deriving DecidableEq, Repr

/-- The timer-relevant mutable attributes of the `UltraTimer` object:
`self.mode`, `self.is_running`, `self.start_time`, `self.duration`,
`self.elapsed`, `self.remaining`, and the three statistics counters of
`self.stats` that the claims mention (`total_sessions`, `total_time`,
`completed_timers`). -/
structure UState where
  mode : Mode
  is_running : Bool
  start_time : ℚ
  duration : ℚ
  elapsed : ℚ
  remaining : ℚ
  total_sessions : ℕ
  total_time : ℕ
  completed_timers : ℕ
deriving DecidableEq, Repr

/-- One pass of `update_display` (lines 318-369), at wall-clock instant
`now`, restricted to its state effects and emitted side effects.
Returns the new state, the sounds dispatched via `play_sound`, and the
notifications dispatched via `show_notification`.

Faithful points: in clock mode the method does nothing; in stopwatch
mode a running watch recomputes `elapsed = now - start_time`; in
timer/countdown/pomodoro modes a running timer recomputes
`remaining = max(0, duration - (now - start_time))`, plays "critical"
only when the new remaining equals 60 exactly, plays "warning" only
when it equals 120 exactly (and only in the `elif remaining <= 120`
branch, i.e. when it is not already ≤ 60), and on `remaining == 0`
sets `is_running = False`, plays "finish", shows the notification and
increments `stats["completed_timers"]`.  When `is_running` is false
the method changes no state and emits nothing. -/
def update_display (s : UState) (now : ℚ) : UState × List SoundKind × List String :=
  match s.mode with
  | Mode.clock => (s, [], [])
  | Mode.stopwatch =>
      if s.is_running then
        ({ s with elapsed := now - s.start_time }, [], [])
      else
        (s, [], [])
  | Mode.timer | Mode.countdown | Mode.pomodoro =>
      if s.is_running then
        let elapsed := now - s.start_time
        let remaining := max 0 (s.duration - elapsed)
        let sounds :=
          if remaining ≤ 60 then
            (if remaining = 60 then [SoundKind.critical] else [])
          else if remaining ≤ 120 then
            (if remaining = 120 then [SoundKind.warning] else [])
          else []
        if remaining = 0 then
          ({ s with is_running := false,
                    remaining := remaining,
                    completed_timers := s.completed_timers + 1 },
           sounds ++ [SoundKind.finish], ["Timer Finished!"])
        else
          ({ s with remaining := remaining }, sounds, [])
      else
        (s, [], [])

/-- Model of `toggle_timer` (lines 286-299): if running, stop; otherwise start,
re-anchoring `start_time`.  For stopwatch the anchor is offset by the
banked `elapsed`; for timer/countdown/pomodoro the anchor is set to
`now` with no offset. -/
def toggle_timer (s : UState) (now : ℚ) : UState :=
  if s.is_running then
    { s with is_running := false }
  else
    match s.mode with
    | Mode.stopwatch =>
        { s with is_running := true, start_time := now - s.elapsed }
    | Mode.timer | Mode.countdown | Mode.pomodoro =>
        { s with is_running := true, start_time := now }
    | Mode.clock =>
        { s with is_running := true }

/-- Model of `reset_timer` (lines 301-309): `is_running = False`, `elapsed = 0`,
`remaining = duration`, then a synchronous `update_display` call. -/
def reset_timer (s : UState) (now : ℚ) : UState :=
  (update_display { s with is_running := false, elapsed := 0,
                           remaining := s.duration } now).1

/-- Model of `set_duration` (lines 311-316): unconditionally `duration = seconds`
and `remaining = seconds`, then a synchronous `update_display` call.
There is no validation of the argument. -/
def set_duration (s : UState) (seconds : ℚ) (now : ℚ) : UState :=
  (update_display { s with duration := seconds, remaining := seconds } now).1

/-- Run `update_display` at each instant of `times` in order,
accumulating all sounds emitted along the run (the sampling behaviour
of the 100 ms `root.after` loop, with the sample instants made
explicit). -/
def run_ticks (s : UState) (times : List ℚ) : UState × List SoundKind :=
  times.foldl
    (fun acc t =>
      let r := update_display acc.1 t
      (r.1, acc.2 ++ r.2.1))
    (s, [])

/-!
## Persistence model

`save_presets` (lines 559-566) serialises `{name: vars(preset) ...}`
with `json.dump`; `load_presets` (lines 568-577) parses the file and
rebuilds `{name: TimerPreset(**preset_data) ...}`.  The persisted
document is modelled at the JSON-value level (the Python `json` module
round-trips strings, ints and bools exactly), as an association list
from preset name to a JSON value.
-/

/-- JSON values, restricted to the shapes the preset document uses. -/
inductive Json
  | jnum (n : Int)
  | jstr (s : String)
  | jbool (b : Bool)
  | jobj (fields : List (String × Json))

/-- The `TimerPreset` dataclass (lines 27-35) with its field defaults. -/
structure TimerPreset where
  name : String
  duration : Int
  warning_time : Int := 120
  critical_time : Int := 60
  sound_enabled : Bool := true
  color_theme : String := "default"
deriving DecidableEq, Repr

/-- Model of `vars(preset)`: the attribute dictionary of the dataclass,
in declared field order, as a JSON object. -/
def preset_vars (p : TimerPreset) : Json :=
  Json.jobj
    [("name", Json.jstr p.name),
     ("duration", Json.jnum p.duration),
     ("warning_time", Json.jnum p.warning_time),
     ("critical_time", Json.jnum p.critical_time),
     ("sound_enabled", Json.jbool p.sound_enabled),
     ("color_theme", Json.jstr p.color_theme)]

/-- Read a required string-valued keyword argument. -/
def req_str (fields : List (String × Json)) (key : String) : Option String :=
  match fields.lookup key with
  | some (Json.jstr s) => some s
  | _ => none

/-- Read a required int-valued keyword argument. -/
def req_int (fields : List (String × Json)) (key : String) : Option Int :=
  match fields.lookup key with
  | some (Json.jnum n) => some n
  | _ => none

/-- Read an int keyword argument with a dataclass default: absent keys
take the default, present keys must be ints. -/
def opt_int (fields : List (String × Json)) (key : String) (dflt : Int) : Option Int :=
  match fields.lookup key with
  | some (Json.jnum n) => some n
  | some _ => none
  | none => some dflt

/-- Read a bool keyword argument with a dataclass default. -/
def opt_bool (fields : List (String × Json)) (key : String) (dflt : Bool) : Option Bool :=
  match fields.lookup key with
  | some (Json.jbool b) => some b
  | some _ => none
  | none => some dflt

/-- Read a string keyword argument with a dataclass default. -/
def opt_str (fields : List (String × Json)) (key : String) (dflt : String) : Option String :=
  match fields.lookup key with
  | some (Json.jstr s) => some s
  | some _ => none
  | none => some dflt

/-- Model of `TimerPreset(**preset_data)`: keyword construction of the dataclass
from a parsed JSON object.  `name` and `duration` are required
(no dataclass default); the other four fields default when absent. -/
def preset_of_json : Json → Option TimerPreset
  | Json.jobj fields =>
      match req_str fields "name", req_int fields "duration",
            opt_int fields "warning_time" 120,
            opt_int fields "critical_time" 60,
            opt_bool fields "sound_enabled" true,
            opt_str fields "color_theme" "default" with
      | some n, some d, some w, some c, some se, some ct =>
          some { name := n, duration := d, warning_time := w,
                 critical_time := c, sound_enabled := se, color_theme := ct }
      | _, _, _, _, _, _ => none
  | _ => none

/-- The document `save_presets` writes: each preset replaced by its
attribute dictionary, keyed by name. -/
def save_presets_doc (presets : List (String × TimerPreset)) : List (String × Json) :=
  presets.map (fun nb => (nb.1, preset_vars nb.2))

/-- The reconstruction `load_presets` performs on a parsed document:
`{name: TimerPreset(**preset_data) for name, preset_data in data.items()}`,
failing if any entry fails keyword construction. -/
def load_presets_doc : List (String × Json) → Option (List (String × TimerPreset))
  | [] => some []
  | (n, j) :: rest =>
      match preset_of_json j, load_presets_doc rest with
      | some p, some ps => some ((n, p) :: ps)
      | _, _ => none

/-!
## File-write model

Both `save_presets` (line 561) and `save_stats` (line 581) write with
`with open(path, "w") as f: json.dump(..., f)`: the target file itself
is opened in truncating write mode and the serialised document is
streamed into it.  No temporary file is created and no atomic replace
is performed.  `save_to_file old new crash` gives the file content
after such a write over previous content `old`: a completed write
(`crash = none`) leaves the new document; a write interrupted after
`k` characters (`crash = some k`) leaves the truncated prefix written
so far.
-/

/-- Content of the persisted file (as a character list) after a
truncating direct write of `new` over `old`, possibly interrupted
after `k` characters. -/
def save_to_file (old new : List Char) (crash : Option Nat) : List Char :=
  match crash with
  | none => new
  | some k => new.take k

/-!
## Remote-control server model

`start_web_server` (lines 629-725) builds an HTML remote-control page,
picks a free port, constructs an `HTTPServer` bound to that port with
`SimpleHTTPRequestHandler` — the stock static-file handler, which
serves files from the working directory and has no application routes —
and then returns without ever calling `serve_forever` (the source
itself notes: "This is a simplified version").  The GET semantics of
the handler over an abstract file system: serve the file at the path if
it exists, else 404.  It takes no timer state and dispatches no
timer operation.
-/

/-- An HTTP response of the modelled handler. -/
inductive WebResponse
  | ok (body : String)
  | notFound
deriving DecidableEq, Repr

/-- What the thread launched by `start_web_server` leaves behind: which handler class
the server object was constructed with, and whether the serve loop was
ever entered. -/
structure WebServerState where
  handlerIsStaticFileServer : Bool
  serveLoopStarted : Bool
deriving DecidableEq, Repr

/-- The server construction performed by `run_server`: an `HTTPServer`
with the stock `SimpleHTTPRequestHandler`, never started
(`serve_forever` is absent from the source). -/
def start_web_server : WebServerState :=
  { handlerIsStaticFileServer := true, serveLoopStarted := false }

/-- Model of `SimpleHTTPRequestHandler.do_GET` over an abstract mapping from
paths to file contents: serve the file or 404.  It is a pure function
of the file system and the path; in particular it cannot read or write
timer state. -/
def simple_http_handle_get (fs : String → Option String) (path : String) : WebResponse :=
  match fs path with
  | some body => WebResponse.ok body
  | none => WebResponse.notFound


/-- The timer/countdown/pomodoro group of modes: the modes that take
the countdown branch of `update_display` (`self.mode.get() in
["timer", "countdown", "pomodoro"]`). -/
def countdown_like (m : Mode) : Prop :=
  m = Mode.timer ∨ m = Mode.countdown ∨ m = Mode.pomodoro

/-- A concrete sample state used to instantiate the theorems: a
5-minute countdown that has not been started, with some prior
statistics. -/
def base_state : UState :=
  { mode := Mode.countdown, is_running := false, start_time := 0,
    duration := 300, elapsed := 0, remaining := 300,
    total_sessions := 7, total_time := 40, completed_timers := 2 }

/-!
## Helper lemmas
-/

/-- While `is_running` is false, `update_display` changes no state and
emits no side effect, in every mode. -/
theorem update_display_not_running (s : UState) (now : ℚ)
    (h : s.is_running = false) :
    update_display s now = (s, [], []) := by
  obtain ⟨m, run, a, d, e, rem, ts, tt, ct⟩ := s
  dsimp only at h
  subst h
  cases m <;> simp [update_display]

/-- Characterisation of the state component of a running
timer/countdown/pomodoro tick: either the clamped remaining time is 0
and the engine stops itself while bumping `completed_timers`, or the
state merely records the new remaining time. -/
theorem update_display_run (s : UState) (now : ℚ)
    (hm : countdown_like s.mode) (hr : s.is_running = true) :
    (update_display s now).1 =
      if max 0 (s.duration - (now - s.start_time)) = 0 then
        { s with is_running := false, remaining := 0,
                 completed_timers := s.completed_timers + 1 }
      else
        { s with remaining := max 0 (s.duration - (now - s.start_time)) } := by
  obtain ⟨m, run, a, d, e, rem, ts, tt, ct⟩ := s
  dsimp only at hr
  subst hr
  dsimp only [countdown_like] at hm
  rcases hm with h | h | h <;> subst h <;>
    · dsimp only [update_display]
      by_cases hc : max 0 (d - (now - a)) = 0 <;> simp [hc]

/-- On a running timer/countdown/pomodoro tick at which elapsed time
has reached the duration, `update_display` stops the engine, bumps
`completed_timers`, and emits exactly the finish sound and the finish
notification. -/
theorem update_display_finish (s : UState) (now : ℚ)
    (hm : countdown_like s.mode) (hr : s.is_running = true)
    (hfin : s.duration - (now - s.start_time) ≤ 0) :
    update_display s now =
      ({ s with is_running := false, remaining := 0,
                completed_timers := s.completed_timers + 1 },
       [SoundKind.finish], ["Timer Finished!"]) := by
  obtain ⟨m, run, a, d, e, rem, ts, tt, ct⟩ := s
  dsimp only at hr hfin
  subst hr
  dsimp only [countdown_like] at hm
  have hmax : max 0 (d - (now - a)) = 0 := max_eq_left hfin
  rcases hm with h | h | h <;> subst h <;>
    · dsimp only [update_display]
      rw [hmax]
      norm_num

/-- Keyword reconstruction inverts `vars`: `TimerPreset(**vars(p)) = p`. -/
theorem preset_of_json_vars (p : TimerPreset) :
    preset_of_json (preset_vars p) = some p := by
  cases p
  simp [preset_of_json, preset_vars, req_str, req_int, opt_int, opt_bool,
        opt_str, List.lookup]

/-!
## Claims
-/

/-- C10: `reset_timer` changes only the run-segment state: for every
engine state, `duration` and `mode` are unchanged, `is_running` becomes
false, `elapsed` becomes 0, and `remaining` becomes `duration`. -/
theorem reset_timer_frame (s : UState) (now : ℚ) :
    (reset_timer s now).duration = s.duration ∧
    (reset_timer s now).mode = s.mode ∧
    (reset_timer s now).is_running = false ∧
    (reset_timer s now).elapsed = 0 ∧
    (reset_timer s now).remaining = s.duration := by
  unfold reset_timer
  rw [update_display_not_running _ _ rfl]
  exact ⟨rfl, rfl, rfl, rfl, rfl⟩

/-- C8: saving the presets and loading them back reproduces the
original name-to-preset mapping field-for-field. -/
theorem save_load_presets_roundtrip (presets : List (String × TimerPreset)) :
    load_presets_doc (save_presets_doc presets) = some presets := by
  induction presets with
  | nil => rfl
  | cons hd tl ih =>
      simp only [save_presets_doc] at ih ⊢
      simp [load_presets_doc, preset_of_json_vars, ih]

/-- C4: the remote-control server in the source never answers `GET /status`
with the JSON time body and never dispatches `GET /command/...` to a
timer operation: the server is constructed with the stock static-file
handler (which 404s any path not backed by a file and touches no timer
state) and the serve loop is never entered. -/
theorem web_server_serves_no_commands :
    start_web_server.serveLoopStarted = false ∧
    start_web_server.handlerIsStaticFileServer = true ∧
    simple_http_handle_get (fun _ => none) "/status" = WebResponse.notFound ∧
    simple_http_handle_get (fun _ => none) "/command/start" = WebResponse.notFound ∧
    simple_http_handle_get (fun _ => none) "/command/reset" = WebResponse.notFound ∧
    simple_http_handle_get (fun _ => none) "/command/1min" = WebResponse.notFound :=
  ⟨rfl, rfl, rfl, rfl, rfl, rfl⟩

/-- C7 counterexample: a write that fails immediately after the
truncating open does not leave the previous persisted file untouched —
the previous document is already destroyed. -/
theorem save_crash_loses_previous :
    save_to_file ['p', 'r', 'e', 'v'] ['n', 'e', 'w'] (some 0) ≠
      ['p', 'r', 'e', 'v'] := by
  decide

/-- C7 (amended): saving presets or statistics opens the persisted
file itself in truncating write mode and streams the new document into
it — there is no temporary file and no atomic replace — so a completed
write leaves exactly the new document, while a write interrupted right
after the open leaves an empty file, losing any non-empty previous
content. -/
theorem save_direct_truncating_write (old newDoc : List Char)
    (h : old ≠ []) :
    save_to_file old newDoc none = newDoc ∧
    save_to_file old newDoc (some 0) = [] ∧
    save_to_file old newDoc (some 0) ≠ old := by
  refine ⟨rfl, by simp [save_to_file], ?_⟩
  simp only [save_to_file, List.take_zero]
  exact fun hcontra => h hcontra.symm

/-- C7 witness for `save_direct_truncating_write` at concrete
documents. -/
theorem save_direct_truncating_write_witness :
    save_to_file ['o', 'l', 'd'] ['n'] none = ['n'] ∧
    save_to_file ['o', 'l', 'd'] ['n'] (some 0) = [] ∧
    save_to_file ['o', 'l', 'd'] ['n'] (some 0) ≠ ['o', 'l', 'd'] :=
  save_direct_truncating_write ['o', 'l', 'd'] ['n'] (by decide)

/-- C5 counterexample: `set_duration(-5)` is not rejected — the engine
state changes: `duration` becomes −5 (and `remaining` follows), and no
error path exists in the source. -/
theorem set_duration_negative_accepted :
    (set_duration base_state (-5) 0).duration = -5 ∧
    (set_duration base_state (-5) 0).duration ≠ base_state.duration ∧
    (set_duration base_state (-5) 0).remaining = -5 := by
  rw [set_duration, update_display_not_running _ _ rfl]
  norm_num [base_state]

/-- C5 (amended): `set_duration` performs no validation and reports no
error: for every state that is not running and every argument,
including negative ones, it sets both `duration` and `remaining` to
the argument. -/
theorem set_duration_unvalidated (s : UState) (secs now : ℚ)
    (h : s.is_running = false) :
    set_duration s secs now = { s with duration := secs, remaining := secs } := by
  rw [set_duration,
      update_display_not_running { s with duration := secs, remaining := secs } now h]

/-- C5 witness for `set_duration_unvalidated` at a concrete state and
a negative argument. -/
theorem set_duration_unvalidated_witness :
    set_duration base_state (-5) 0 =
      { base_state with duration := -5, remaining := -5 } :=
  set_duration_unvalidated base_state (-5) 0 rfl

/-- C1 counterexample: on the concrete finishing tick (duration 300,
started at 0, tick at 300) the engine does stop and bump
`completed_timers`, but `total_sessions` and `total_time` keep their
prior values 7 and 40 — the source never updates them — contradicting
the claim that the finishing tick updates `totalSessions` and
`totalTimeSeconds`. -/
theorem finish_tick_stats_not_updated :
    (update_display { base_state with is_running := true } 300).1.is_running = false ∧
    (update_display { base_state with is_running := true } 300).1.completed_timers = 3 ∧
    (update_display { base_state with is_running := true } 300).1.total_sessions = 7 ∧
    (update_display { base_state with is_running := true } 300).1.total_time = 40 := by
  norm_num [update_display, base_state]

/-- C1 (amended): on the tick at which remaining reaches 0 while
running, the engine stops itself, increments `completed_timers` by
exactly 1, leaves `total_sessions` and `total_time` unchanged, and
dispatches exactly the finish sound and the finish notification;
every subsequent tick while stopped changes nothing and emits
nothing. -/
theorem finish_edge (s : UState) (now : ℚ)
    (hm : countdown_like s.mode) (hr : s.is_running = true)
    (hfin : s.duration - (now - s.start_time) ≤ 0) :
    (update_display s now).1.is_running = false ∧
    (update_display s now).1.completed_timers = s.completed_timers + 1 ∧
    (update_display s now).1.total_sessions = s.total_sessions ∧
    (update_display s now).1.total_time = s.total_time ∧
    (update_display s now).2.1 = [SoundKind.finish] ∧
    (update_display s now).2.2 = ["Timer Finished!"] ∧
    ∀ later : ℚ, update_display (update_display s now).1 later =
      ((update_display s now).1, [], []) := by
  rw [update_display_finish s now hm hr hfin]
  refine ⟨rfl, rfl, rfl, rfl, rfl, rfl, ?_⟩
  intro later
  exact update_display_not_running _ later rfl

/-- C1 witness for `finish_edge` at the concrete finishing tick. -/
theorem finish_edge_witness :
    (update_display { base_state with is_running := true } 300).1.is_running = false ∧
    (update_display { base_state with is_running := true } 300).1.completed_timers =
      { base_state with is_running := true }.completed_timers + 1 ∧
    (update_display { base_state with is_running := true } 300).1.total_sessions =
      { base_state with is_running := true }.total_sessions ∧
    (update_display { base_state with is_running := true } 300).1.total_time =
      { base_state with is_running := true }.total_time ∧
    (update_display { base_state with is_running := true } 300).2.1 = [SoundKind.finish] ∧
    (update_display { base_state with is_running := true } 300).2.2 = ["Timer Finished!"] ∧
    ∀ later : ℚ,
      update_display (update_display { base_state with is_running := true } 300).1 later =
        ((update_display { base_state with is_running := true } 300).1, [], []) :=
  finish_edge { base_state with is_running := true } 300
    (by simp [countdown_like, base_state]) rfl (by norm_num [base_state])

/-- C6: while a timer/countdown/pomodoro session is running with no
intervening operations, remaining is monotonically non-increasing
across successive ticks and never goes below 0. -/
theorem remaining_monotone (s : UState) (t1 t2 : ℚ)
    (hm : countdown_like s.mode) (hr : s.is_running = true)
    (hlt : t1 < t2) :
    (update_display (update_display s t1).1 t2).1.remaining ≤
      (update_display s t1).1.remaining ∧
    0 ≤ (update_display (update_display s t1).1 t2).1.remaining := by
  rw [update_display_run s t1 hm hr]
  by_cases hc : max 0 (s.duration - (t1 - s.start_time)) = 0
  · rw [if_pos hc, update_display_not_running _ _ rfl]
    exact ⟨le_refl 0, le_refl 0⟩
  · rw [if_neg hc,
        update_display_run
          { s with remaining := max 0 (s.duration - (t1 - s.start_time)) } t2 hm hr]
    dsimp only
    by_cases hc2 : max 0 (s.duration - (t2 - s.start_time)) = 0
    · rw [if_pos hc2]
      exact ⟨le_max_left 0 _, le_refl 0⟩
    · rw [if_neg hc2]
      constructor
      · exact max_le_max (le_refl 0) (by linarith)
      · exact le_max_left 0 _

/-- C6 witness for `remaining_monotone` at a concrete running
countdown and tick instants 10 < 20. -/
theorem remaining_monotone_witness :
    (update_display (update_display { base_state with is_running := true } 10).1 20).1.remaining ≤
      (update_display { base_state with is_running := true } 10).1.remaining ∧
    0 ≤ (update_display (update_display { base_state with is_running := true } 10).1 20).1.remaining :=
  remaining_monotone { base_state with is_running := true } 10 20
    (by simp [countdown_like, base_state]) rfl (by norm_num)

/-- C2: a sampled sweep of remaining from 300 down to 0 whose samples
(at instants 100, 179, 180.5, 240.5, 300, so remaining 200, 121,
119.5, 59.5, 0) cross the warning threshold 120 and the critical
threshold 60 without ever equalling them fires neither the warning
nor the critical sound — only the finish fires — because the source
tests `remaining == 120` and `remaining == 60` by exact equality
rather than crossing detection. -/
theorem threshold_sounds_skipped :
    (run_ticks { base_state with is_running := true }
      [100, 179, 361/2, 481/2, 300]).2 = [SoundKind.finish] := by
  norm_num [run_ticks, update_display, base_state]

/-- C3: pause then resume restarts the countdown instead of resuming
from the paused remaining value: starting a 300 s countdown at t=0,
ticking at t=100 (remaining 200), pausing at t=100, idling at t=110
(remaining still 200), resuming at t=150 and ticking at t=151 yields
remaining 299 — the countdown restarted from the full duration — not
the 199 the claim requires, because `toggle_timer` re-anchors
`start_time = now` with nothing banked. -/
theorem pause_resume_restarts_countdown :
    ((update_display (toggle_timer base_state 0) 100).1).remaining = 200 ∧
    ((update_display
        (toggle_timer ((update_display (toggle_timer base_state 0) 100).1) 100)
        110).1).remaining = 200 ∧
    ((update_display
        (toggle_timer
          ((update_display
              (toggle_timer ((update_display (toggle_timer base_state 0) 100).1) 100)
              110).1)
          150)
        151).1).remaining = 299 ∧
    ((update_display
        (toggle_timer
          ((update_display
              (toggle_timer ((update_display (toggle_timer base_state 0) 100).1) 100)
              110).1)
          150)
        151).1).remaining ≠ 199 := by
  norm_num [toggle_timer, update_display, base_state]
